import Mathlib

/-!
Verification development for the ml-failure-dashboard repository.

The frontend mock-data module (`frontend/src/api/types.ts` together with the
mock-data section it bundles) is embedded shallowly below: TypeScript numbers
are modelled as rationals (every numeric literal in the source is a decimal
fraction, represented exactly), counts and page arithmetic as naturals, and
JavaScript arrays as lists.  The backend evaluation pipeline
(`backend/app/services/evaluator.py`) is not part of the source tree; the
aggregators the specification describes for it are modelled from the spec and
marked as such in their doc comments.
-/

namespace MLDash

/-- CIFAR-10 class labels (`CIFAR10_LABELS` in `types.ts`). -/
def CIFAR10_LABELS : List String :=
  ["airplane", "automobile", "bird", "cat", "deer",
   "dog", "frog", "horse", "ship", "truck"]

/-- Model overview metrics (`OverviewMetrics` in `types.ts`).  TypeScript
numbers carrying fractions are rationals; sample and failure counts are
naturals (every value the repository stores in them is a non-negative
integer). -/
structure OverviewMetrics where
  modelName : String
  datasetName : String
  totalSamples : ℕ
  accuracy : ℚ
  precision : ℚ
  «recall» : ℚ
  f1Score : ℚ
  avgConfidence : ℚ
  correctConfident : ℚ
  correctUnsure : ℚ
  wrongUnsure : ℚ
  wrongConfident : ℚ
  totalFailures : ℕ
deriving DecidableEq, Inhabited

/-- Confusion matrix data (`ConfusionMatrix` in `types.ts`):
`matrix[trueLabel][predictedLabel] = count`.  Entries are counts, hence
naturals (the spec requires a non-negative integer matrix). -/
structure ConfusionMatrix where
  labels : List String
  matrix : List (List ℕ)
deriving DecidableEq, Inhabited

/-- Confidence-vs-correctness curve data point (`ConfidenceCurvePoint`). -/
structure ConfidenceCurvePoint where
  confidenceBucket : String
  confidenceMin : ℚ
  confidenceMax : ℚ
  totalCount : ℕ
  correctCount : ℕ
  incorrectCount : ℕ
  accuracyInBucket : ℚ
deriving DecidableEq, Inhabited

/-- Alias `ConfidenceCurve = ConfidenceCurvePoint[]`. -/
def ConfidenceCurve : Type := List ConfidenceCurvePoint

/-- Error distribution entry (`ErrorByClass` in `types.ts`). -/
structure ErrorByClass where
  className : String
  totalSamples : ℕ
  correctCount : ℕ
  errorCount : ℕ
  errorRate : ℚ
  avgConfidenceOnErrors : ℚ
deriving DecidableEq, Inhabited

/-- One entry of `topPredictions` (`{label, probability}` in `types.ts`). -/
structure TopPrediction where
  label : String
  probability : ℚ
deriving DecidableEq, Inhabited

/-- Individual prediction record (`PredictionRecord` in `types.ts`). -/
structure PredictionRecord where
  id : String
  imageUrl : String
  trueLabel : String
  predictedLabel : String
  confidence : ℚ
  isCorrect : Bool
  isHighConfidenceError : Bool
  topPredictions : List TopPrediction
deriving DecidableEq, Inhabited

/-- Paginated predictions response (`PaginatedPredictions` in `types.ts`). -/
structure PaginatedPredictions where
  predictions : List PredictionRecord
  total : ℕ
  page : ℕ
  pageSize : ℕ
  totalPages : ℕ
deriving DecidableEq, Inhabited

/-- Filter options for the failure explorer (`PredictionFilters` in
`types.ts`, restricted to the six filter fields that
`getMockPaginatedPredictions` consumes; `page`/`pageSize` are passed as
separate arguments exactly as in the source).  `none` models an absent
(`undefined`) field. -/
structure PredictionFilters where
  trueLabel : Option String
  predictedLabel : Option String
  minConfidence : Option ℚ
  maxConfidence : Option ℚ
  onlyErrors : Option Bool
  onlyHighConfidenceErrors : Option Bool
deriving DecidableEq, Inhabited

/-- The standard base64 alphabet used by `btoa`. -/
def b64Alphabet : String :=
  "ABCDEFGHIJKLMNOPQRSTUVWXYZabcdefghijklmnopqrstuvwxyz0123456789+/"

/-- Character `n` of the base64 alphabet. -/
def b64Char (n : ℕ) : Char := b64Alphabet.data.getD n '='

/-- Base64-encode a byte sequence (each input is a byte value). -/
def b64Encode : List ℕ → List Char
  | a :: b :: c :: rest =>
    let n := a * 65536 + b * 256 + c
    b64Char (n / 262144) :: b64Char (n / 4096 % 64) :: b64Char (n / 64 % 64) ::
      b64Char (n % 64) :: b64Encode rest
  | [a, b] =>
    let n := a * 65536 + b * 256
    [b64Char (n / 262144), b64Char (n / 4096 % 64), b64Char (n / 64 % 64), '=']
  | [a] =>
    let n := a * 65536
    [b64Char (n / 262144), b64Char (n / 4096 % 64), '=', '=']
  | [] => []

/-- JavaScript `btoa` on a Latin-1 string (every string it is applied to in
the source is plain ASCII). -/
def btoa (s : String) : String := String.mk (b64Encode (s.data.map Char.toNat))

/-- JavaScript `String.prototype.slice(0, n)` for a non-negative end index. -/
def jsSliceTo (s : String) (n : ℕ) : String := String.mk (s.data.take n)

/-- JavaScript `String.prototype.padStart(n, c)`. -/
def padStart (s : String) (n : ℕ) (c : Char) : String :=
  String.mk (List.replicate (n - s.length) c) ++ s

/-- The `colorMap` object of `generatePlaceholderImage` as an association
list in source order. -/
def colorMap : List (String × String) :=
  [("airplane", "#4A90D9"), ("automobile", "#D94A4A"), ("bird", "#8B4513"),
   ("cat", "#FFA500"), ("deer", "#8B7355"), ("dog", "#D2691E"),
   ("frog", "#228B22"), ("horse", "#A0522D"), ("ship", "#1E90FF"),
   ("truck", "#708090")]

/-- Function `generatePlaceholderImage` of the mock-data module: an SVG placeholder
data URL coloured by class. -/
def generatePlaceholderImage (className : String) : String :=
  let color := ((colorMap.find? fun p => p.1 == className).map Prod.snd).getD ("#666666")
  let svg :=
    "\n    <svg xmlns=\"http://www.w3.org/2000/svg\" width=\"32\" height=\"32\" viewBox=\"0 0 32 32\">\n      <rect width=\"32\" height=\"32\" fill=\"" ++
    color ++
    "\" rx=\"2\"/>\n      <text x=\"16\" y=\"20\" font-family=\"Arial\" font-size=\"8\" fill=\"white\" text-anchor=\"middle\">" ++
    jsSliceTo className 4 ++
    "</text>\n    </svg>\n  "
  "data:image/svg+xml;base64," ++ btoa svg

/-- The `confusionPairs` array of `generateMockPredictions`:
`[trueLabel, predictedLabel, confidence]` triples, in source order. -/
def confusionPairs : List (String × String × ℚ) :=
  [("cat", "dog", 0.78), ("dog", "cat", 0.72), ("cat", "dog", 0.85),
   ("dog", "cat", 0.91), ("bird", "airplane", 0.65), ("airplane", "bird", 0.58),
   ("truck", "automobile", 0.82), ("automobile", "truck", 0.76),
   ("deer", "horse", 0.69), ("horse", "deer", 0.71), ("bird", "frog", 0.45),
   ("frog", "bird", 0.52), ("cat", "frog", 0.38), ("ship", "airplane", 0.74),
   ("airplane", "ship", 0.68), ("deer", "bird", 0.42), ("bird", "deer", 0.55),
   ("dog", "deer", 0.47), ("cat", "bird", 0.61), ("truck", "ship", 0.59),
   ("cat", "dog", 0.93), ("dog", "cat", 0.88), ("bird", "cat", 0.44),
   ("frog", "deer", 0.51), ("horse", "dog", 0.63), ("automobile", "ship", 0.48),
   ("ship", "truck", 0.72), ("deer", "frog", 0.39), ("cat", "deer", 0.56),
   ("dog", "horse", 0.67), ("bird", "frog", 0.73), ("airplane", "truck", 0.41),
   ("truck", "airplane", 0.55), ("frog", "cat", 0.62), ("horse", "deer", 0.79),
   ("cat", "dog", 0.81), ("dog", "cat", 0.77), ("bird", "airplane", 0.86),
   ("automobile", "truck", 0.92), ("ship", "airplane", 0.64)]

/-- The `correctPredictions` array of `generateMockPredictions`:
`[label, confidence]` pairs, in source order. -/
def correctPredictions : List (String × ℚ) :=
  [("airplane", 0.95), ("automobile", 0.89), ("bird", 0.72), ("cat", 0.84),
   ("deer", 0.78), ("dog", 0.91), ("frog", 0.96), ("horse", 0.83),
   ("ship", 0.88), ("truck", 0.79)]

/-- Function `generateMockPredictions` of the mock-data module.  The two `forEach`
loops that push records are modelled as index-aware maps over the source
arrays; note the flag assignment `isHighConfidenceError: confidence > 0.7`
for the error records (a hard-coded strict comparison with 0.7) and the
constant `false` for the correct records. -/
def generateMockPredictions : List PredictionRecord :=
  let errorRecords := confusionPairs.enum.map fun ip =>
    let index := ip.1
    let trueLabel := ip.2.1
    let predictedLabel := ip.2.2.1
    let confidence := ip.2.2.2
    let topPredictions : List TopPrediction :=
      [{ label := predictedLabel, probability := confidence },
       { label := trueLabel, probability := max 0.05 ((1 - confidence) * 0.6) },
       { label := (CIFAR10_LABELS.find? fun l => l != trueLabel && l != predictedLabel).getD ("other"),
         probability := max 0.02 ((1 - confidence) * 0.3) }]
    { id := ("pred_") ++ padStart (toString index) 4 '0',
      imageUrl := generatePlaceholderImage trueLabel,
      trueLabel := trueLabel,
      predictedLabel := predictedLabel,
      confidence := confidence,
      isCorrect := false,
      isHighConfidenceError := decide ((0.7 : ℚ) < confidence),
      topPredictions := topPredictions }
  let correctRecords := correctPredictions.enum.map fun ip =>
    let index := ip.1
    let label := ip.2.1
    let confidence := ip.2.2
    { id := ("pred_correct_") ++ padStart (toString index) 4 '0',
      imageUrl := generatePlaceholderImage label,
      trueLabel := label,
      predictedLabel := label,
      confidence := confidence,
      isCorrect := true,
      isHighConfidenceError := false,
      topPredictions :=
        [{ label := label, probability := confidence },
         { label := (CIFAR10_LABELS.find? fun l => l != label).getD ("other"),
           probability := (1 - confidence) * 0.5 },
         { label := ((CIFAR10_LABELS.enum.find? fun p => p.2 != label && decide (0 < p.1)).map
             (fun p => p.2)).getD ("other"),
           probability := (1 - confidence) * 0.3 }] }
  errorRecords ++ correctRecords

/-- Module-level constant `mockPredictions`. -/
def mockPredictions : List PredictionRecord := generateMockPredictions

/-- Module-level constant `mockOverviewMetrics` (hand-written demo data). -/
def mockOverviewMetrics : OverviewMetrics :=
  { modelName := "ResNet-18 (CIFAR-10)",
    datasetName := "CIFAR-10 Test Set",
    totalSamples := 10000,
    accuracy := 0.8847,
    precision := 0.8856,
    «recall» := 0.8847,
    f1Score := 0.8842,
    avgConfidence := 0.7823,
    correctConfident := 72.3,
    correctUnsure := 16.2,
    wrongUnsure := 6.8,
    wrongConfident := 4.7,
    totalFailures := 1153 }

/-- Module-level constant `mockConfusionMatrix` (rows are true labels,
columns predicted labels). -/
def mockConfusionMatrix : ConfusionMatrix :=
  { labels := CIFAR10_LABELS,
    matrix :=
      [[912, 8, 22, 4, 6, 2, 3, 5, 28, 10],
       [5, 948, 2, 3, 1, 2, 1, 3, 7, 28],
       [18, 3, 842, 32, 28, 22, 26, 14, 8, 7],
       [6, 4, 28, 798, 18, 92, 24, 16, 6, 8],
       [8, 2, 32, 18, 876, 12, 22, 18, 6, 6],
       [4, 3, 18, 112, 22, 802, 8, 22, 4, 5],
       [6, 2, 28, 24, 18, 8, 896, 6, 6, 6],
       [8, 4, 12, 18, 28, 32, 4, 878, 6, 10],
       [32, 12, 6, 4, 4, 2, 4, 4, 918, 14],
       [8, 42, 4, 6, 4, 4, 2, 8, 18, 904]] }

/-- Module-level constant `mockConfidenceCurve`: note that it has nine
entries and that its first entry spans `[0, 0.2)`. -/
def mockConfidenceCurve : List ConfidenceCurvePoint :=
  [{ confidenceBucket := "0.0-0.2", confidenceMin := 0, confidenceMax := 0.2,
     totalCount := 89, correctCount := 18, incorrectCount := 71,
     accuracyInBucket := 0.202 },
   { confidenceBucket := "0.2-0.3", confidenceMin := 0.2, confidenceMax := 0.3,
     totalCount := 156, correctCount := 52, incorrectCount := 104,
     accuracyInBucket := 0.333 },
   { confidenceBucket := "0.3-0.4", confidenceMin := 0.3, confidenceMax := 0.4,
     totalCount := 312, correctCount := 134, incorrectCount := 178,
     accuracyInBucket := 0.429 },
   { confidenceBucket := "0.4-0.5", confidenceMin := 0.4, confidenceMax := 0.5,
     totalCount := 524, correctCount := 283, incorrectCount := 241,
     accuracyInBucket := 0.540 },
   { confidenceBucket := "0.5-0.6", confidenceMin := 0.5, confidenceMax := 0.6,
     totalCount := 687, correctCount := 446, incorrectCount := 241,
     accuracyInBucket := 0.649 },
   { confidenceBucket := "0.6-0.7", confidenceMin := 0.6, confidenceMax := 0.7,
     totalCount := 1023, correctCount := 778, incorrectCount := 245,
     accuracyInBucket := 0.760 },
   { confidenceBucket := "0.7-0.8", confidenceMin := 0.7, confidenceMax := 0.8,
     totalCount := 1456, correctCount := 1281, incorrectCount := 175,
     accuracyInBucket := 0.880 },
   { confidenceBucket := "0.8-0.9", confidenceMin := 0.8, confidenceMax := 0.9,
     totalCount := 2234, correctCount := 2078, incorrectCount := 156,
     accuracyInBucket := 0.930 },
   { confidenceBucket := "0.9-1.0", confidenceMin := 0.9, confidenceMax := 1.0,
     totalCount := 3519, correctCount := 3377, incorrectCount := 142,
     accuracyInBucket := 0.960 }]

/-- Module-level constant `mockErrorsByClass`. -/
def mockErrorsByClass : List ErrorByClass :=
  [{ className := "airplane", totalSamples := 1000, correctCount := 912,
     errorCount := 88, errorRate := 0.088, avgConfidenceOnErrors := 0.52 },
   { className := "automobile", totalSamples := 1000, correctCount := 948,
     errorCount := 52, errorRate := 0.052, avgConfidenceOnErrors := 0.61 },
   { className := "bird", totalSamples := 1000, correctCount := 842,
     errorCount := 158, errorRate := 0.158, avgConfidenceOnErrors := 0.48 },
   { className := "cat", totalSamples := 1000, correctCount := 798,
     errorCount := 202, errorRate := 0.202, avgConfidenceOnErrors := 0.54 },
   { className := "deer", totalSamples := 1000, correctCount := 876,
     errorCount := 124, errorRate := 0.124, avgConfidenceOnErrors := 0.45 },
   { className := "dog", totalSamples := 1000, correctCount := 802,
     errorCount := 198, errorRate := 0.198, avgConfidenceOnErrors := 0.58 },
   { className := "frog", totalSamples := 1000, correctCount := 896,
     errorCount := 104, errorRate := 0.104, avgConfidenceOnErrors := 0.42 },
   { className := "horse", totalSamples := 1000, correctCount := 878,
     errorCount := 122, errorRate := 0.122, avgConfidenceOnErrors := 0.51 },
   { className := "ship", totalSamples := 1000, correctCount := 918,
     errorCount := 82, errorRate := 0.082, avgConfidenceOnErrors := 0.55 },
   { className := "truck", totalSamples := 1000, correctCount := 904,
     errorCount := 96, errorRate := 0.096, avgConfidenceOnErrors := 0.63 }]

/-- One conditional filter step of `getMockPaginatedPredictions` for an
optional string field: JavaScript truthiness (`if (filters.trueLabel)`) makes
the step act exactly when the field is present and non-empty. -/
def condFilterStr (opt : Option String) (get : PredictionRecord → String)
    (l : List PredictionRecord) : List PredictionRecord :=
  match opt with
  | some s => if s == "" then l else l.filter fun p => get p == s
  | none => l

/-- One conditional filter step for an optional numeric bound: the source
tests `!== undefined`, so the step acts exactly when the field is present
(also when the bound is `0`). -/
def condFilterQ (opt : Option ℚ) (test : ℚ → PredictionRecord → Bool)
    (l : List PredictionRecord) : List PredictionRecord :=
  match opt with
  | some q => l.filter (test q)
  | none => l

/-- One conditional filter step for an optional boolean flag: truthiness
(`if (filters.onlyErrors)`) makes the step act exactly when the field is
present and `true`. -/
def condFilterBool (opt : Option Bool) (pb : PredictionRecord → Bool)
    (l : List PredictionRecord) : List PredictionRecord :=
  match opt with
  | some true => l.filter pb
  | _ => l

/-- The filter cascade of `getMockPaginatedPredictions`: one conditional
`filtered = filtered.filter(...)` statement of the source per field, in
source order. -/
def applyFilters (f : PredictionFilters) (l0 : List PredictionRecord) :
    List PredictionRecord :=
  let l1 := condFilterStr f.trueLabel (fun p => p.trueLabel) l0
  let l2 := condFilterStr f.predictedLabel (fun p => p.predictedLabel) l1
  let l3 := condFilterQ f.minConfidence (fun q p => decide (q ≤ p.confidence)) l2
  let l4 := condFilterQ f.maxConfidence (fun q p => decide (p.confidence ≤ q)) l3
  let l5 := condFilterBool f.onlyErrors (fun p => !p.isCorrect) l4
  condFilterBool f.onlyHighConfidenceErrors (fun p => p.isHighConfidenceError) l5

/-- The pointwise activation/acceptance condition of a string filter step. -/
def condPredStr (opt : Option String) (get : PredictionRecord → String)
    (r : PredictionRecord) : Bool :=
  match opt with
  | some s => s == "" || get r == s
  | none => true

/-- The pointwise acceptance condition of a numeric filter step. -/
def condPredQ (opt : Option ℚ) (test : ℚ → PredictionRecord → Bool)
    (r : PredictionRecord) : Bool :=
  match opt with
  | some q => test q r
  | none => true

/-- The pointwise activation/acceptance condition of a boolean filter step. -/
def condPredBool (opt : Option Bool) (pb : PredictionRecord → Bool)
    (r : PredictionRecord) : Bool :=
  match opt with
  | some true => pb r
  | _ => true

/-- The conjunction of the active filter predicates of `applyFilters`: a
record passes the cascade exactly when it satisfies every active filter. -/
def matchesFilters (f : PredictionFilters) (r : PredictionRecord) : Bool :=
  condPredStr f.trueLabel (fun p => p.trueLabel) r &&
  condPredStr f.predictedLabel (fun p => p.predictedLabel) r &&
  condPredQ f.minConfidence (fun q p => decide (q ≤ p.confidence)) r &&
  condPredQ f.maxConfidence (fun q p => decide (p.confidence ≤ q)) r &&
  condPredBool f.onlyErrors (fun p => !p.isCorrect) r &&
  condPredBool f.onlyHighConfidenceErrors (fun p => p.isHighConfidenceError) r

/-- The `if (filters) { ... }` guard of `getMockPaginatedPredictions`: the
cascade runs only when a filters object was passed. -/
def filterCascade (records : List PredictionRecord)
    (filters : Option PredictionFilters) : List PredictionRecord :=
  match filters with
  | some f => applyFilters f records
  | none => records

/-- The record list `getMockPaginatedPredictions` paginates: the module
constant after the (optional) filter cascade. -/
def filteredMockPredictions (filters : Option PredictionFilters) :
    List PredictionRecord :=
  filterCascade mockPredictions filters

/-- Function `getMockPaginatedPredictions(page, pageSize, filters)` over an explicit
record list.  `Math.ceil(total / pageSize)` is modelled exactly over the
rationals and `filtered.slice(startIndex, startIndex + pageSize)` as
drop-then-take (the source is only ever called with integral `page ≥ 1` and
`pageSize ≥ 1`, where the two semantics agree; the source defaults
`page = 1`, `pageSize = 10`). -/
def getMockPaginatedPredictionsOn (records : List PredictionRecord)
    (page : ℕ) (pageSize : ℕ) (filters : Option PredictionFilters) :
    PaginatedPredictions :=
  let filtered := filterCascade records filters
  let total : ℕ := filtered.length
  let totalPages := (⌈(total : ℚ) / (pageSize : ℚ)⌉).toNat
  let startIndex := (page - 1) * pageSize
  let paginatedPredictions := (filtered.drop startIndex).take pageSize
  { predictions := paginatedPredictions,
    total := total,
    page := page,
    pageSize := pageSize,
    totalPages := totalPages }

/-- Function `getMockPaginatedPredictions` as exported by the mock-data module: it
reads the module-level `mockPredictions` constant. -/
def getMockPaginatedPredictions (page : ℕ) (pageSize : ℕ)
    (filters : Option PredictionFilters) : PaginatedPredictions :=
  getMockPaginatedPredictionsOn mockPredictions page pageSize filters

/-- The mutable state of the mock-data module: the one module-level array
`mockPredictions`.  (`getMockPaginatedPredictions` starts from the spread
copy `[...mockPredictions]`, and `filter`/`slice` allocate fresh arrays, so
per ECMAScript semantics no statement of the function writes this state.) -/
structure MockDataModule where
  mockPredictions : List PredictionRecord
deriving DecidableEq

/-- The module state as it is after module initialisation. -/
def initialMockDataModule : MockDataModule :=
  { mockPredictions := mockPredictions }

/-- Function `getMockPaginatedPredictions` with the module state threaded explicitly:
it returns its result together with the state the call leaves behind.  The
body copies the array (`[...mockPredictions]` — the identity on immutable
list values), then filters and slices the copy; none of these operations
writes the module state, which is therefore returned as received. -/
def getMockPaginatedPredictionsM (st : MockDataModule) (page : ℕ)
    (pageSize : ℕ) (filters : Option PredictionFilters) :
    PaginatedPredictions × MockDataModule :=
  (getMockPaginatedPredictionsOn st.mockPredictions page pageSize filters, st)

/-- Modelled from the spec: the Confusion Aggregator (§4.2) of the backend
evaluation pipeline (`backend/app/services/evaluator.py`), which is not part
of the source tree.  `M[t][p]` counts the records with `trueLabel = t` and
`predictedLabel = p`, the labels ranging over the configured label set in
canonical order. -/
def buildConfusionMatrix (labels : List String)
    (records : List PredictionRecord) : List (List ℕ) :=
  labels.map fun t => labels.map fun p =>
    records.countP fun r => r.trueLabel == t && r.predictedLabel == p

/-- Sum of all entries of a matrix. -/
def matrixTotal (m : List (List ℕ)) : ℕ := (m.map List.sum).sum

/-- Sum of the diagonal entries of a matrix. -/
def matrixDiag (m : List (List ℕ)) : ℕ :=
  (m.enum.map fun iv => iv.2.getD iv.1 0).sum

/-- Modelled from the spec: the Error-by-Class Aggregator (§4.4) of the
backend evaluation pipeline, which is not part of the source tree.  One entry
per label in canonical label-set order; ratios fall back to `0` on empty
denominators. -/
def buildErrorsByClass (labels : List String)
    (records : List PredictionRecord) : List ErrorByClass :=
  labels.map fun c =>
    let group := records.filter fun r => r.trueLabel == c
    let errs := group.filter fun r => !r.isCorrect
    { className := c,
      totalSamples := group.length,
      correctCount := (group.filter fun r => r.isCorrect).length,
      errorCount := errs.length,
      errorRate := if group.length = 0 then 0 else (errs.length : ℚ) / group.length,
      avgConfidenceOnErrors :=
        if errs.length = 0 then 0 else (errs.map fun r => r.confidence).sum / errs.length }

/-- Modelled from the spec: the bucket index of the Confidence Curve Binner
(§4.3) at the default width `0.1`: `floor(confidence / width)`, clamped to
the last bucket so that `confidence = 1.0` lands in bucket 9. -/
def bucketIndex (c : ℚ) : ℕ := min (⌊c / (0.1 : ℚ)⌋).toNat 9

/-- The display label of bucket `i` of the default ten-bucket curve. -/
def bucketLabel (i : ℕ) : String :=
  "0." ++ toString i ++ "-" ++ (if i == 9 then "1.0" else "0." ++ toString (i + 1))

/-- Modelled from the spec: the Confidence Curve Binner (§4.3) of the backend
evaluation pipeline, which is not part of the source tree, at the default
bucket width `0.1`: ten buckets in ascending confidence order, each holding
total/correct/incorrect counts and `accuracy = correct/total` (`0`, not NaN,
when `total = 0`). -/
def buildConfidenceCurve (records : List PredictionRecord) :
    List ConfidenceCurvePoint :=
  (List.range 10).map fun i =>
    let inBucket := records.filter fun r => bucketIndex r.confidence == i
    let correct := (inBucket.filter fun r => r.isCorrect).length
    let incorrect := (inBucket.filter fun r => !r.isCorrect).length
    { confidenceBucket := bucketLabel i,
      confidenceMin := (i : ℚ) / 10,
      confidenceMax := ((i : ℚ) + 1) / 10,
      totalCount := inBucket.length,
      correctCount := correct,
      incorrectCount := incorrect,
      accuracyInBucket :=
        if inBucket.length = 0 then 0 else (correct : ℚ) / inBucket.length }

/-- Modelled from the spec: the four-way breakdown of the Overview Summarizer
(§4.6) of the backend evaluation pipeline, which is not part of the source
tree.  Every record is classified by `isCorrect` and by comparing its
confidence with the threshold (the strict comparison the record builder in
`generateMockPredictions` uses); the percentages are `100 ·
count / total` in the order (correctConfident, correctUnsure, wrongUnsure,
wrongConfident). -/
def fourWayBreakdown (threshold : ℚ) (records : List PredictionRecord) :
    ℚ × ℚ × ℚ × ℚ :=
  let total := records.length
  let cc := records.countP fun r => r.isCorrect && decide (threshold < r.confidence)
  let cu := records.countP fun r => r.isCorrect && decide (r.confidence ≤ threshold)
  let wu := records.countP fun r => !r.isCorrect && decide (r.confidence ≤ threshold)
  let wc := records.countP fun r => !r.isCorrect && decide (threshold < r.confidence)
  (100 * (cc : ℚ) / total, 100 * (cu : ℚ) / total,
   100 * (wu : ℚ) / total, 100 * (wc : ℚ) / total)

/-- Modelled from the spec: the Overview Summarizer accuracy (§4.6),
`accuracy = correctCount / total` (note `0 / 0 = 0` over ℚ, matching the
"fallback 0 on empty denominators" rule of §7). -/
def overviewAccuracy (records : List PredictionRecord) : ℚ :=
  ((records.countP fun r => r.isCorrect : ℕ) : ℚ) / (records.length : ℚ)

/-- Modelled from the spec: the Overview Summarizer failure count,
`totalFailures = total - correctCount`. -/
def overviewTotalFailures (records : List PredictionRecord) : ℕ :=
  records.length - (records.countP fun r => r.isCorrect)

/-- The label set of the concrete scenario of spec §8. -/
def sampleLabels : List String := ["A", "B"]

/-- The three records of the concrete scenario of spec §8:
true/predicted/confidence = (A,A,0.9), (A,B,0.85), (B,B,0.6), with the
derived fields filled per §3 (threshold 0.8 for the high-confidence flag). -/
def sampleRecords : List PredictionRecord :=
  [{ id := "s0", imageUrl := "", trueLabel := "A", predictedLabel := "A",
     confidence := 0.9, isCorrect := true, isHighConfidenceError := false,
     topPredictions := [] },
   { id := "s1", imageUrl := "", trueLabel := "A", predictedLabel := "B",
     confidence := 0.85, isCorrect := false, isHighConfidenceError := true,
     topPredictions := [] },
   { id := "s2", imageUrl := "", trueLabel := "B", predictedLabel := "B",
     confidence := 0.6, isCorrect := true, isHighConfidenceError := false,
     topPredictions := [] }]

/-- A single incorrect low-confidence record, used to exhibit a non-empty
all-incorrect confidence bucket. -/
def lowConfWrongRecord : PredictionRecord :=
  { id := "w0", imageUrl := "", trueLabel := "cat", predictedLabel := "dog",
    confidence := 0.05, isCorrect := false, isHighConfidenceError := false,
    topPredictions := [] }

/-! ### General helper lemmas -/

theorem sum_indicator_eq_one {α : Type} [DecidableEq α] (keys : List α) (a : α)
    (hnd : keys.Nodup) (hk : a ∈ keys) :
    (keys.map fun t => if a = t then (1 : ℕ) else 0).sum = 1 := by
  induction keys with
  | nil => cases hk
  | cons k ks ih =>
    rw [List.nodup_cons] at hnd
    rcases List.mem_cons.mp hk with h | h
    · subst h
      have hz : (ks.map fun t => if a = t then (1 : ℕ) else 0).sum = 0 := by
        apply List.sum_eq_zero
        intro x hx
        rcases List.mem_map.mp hx with ⟨t, ht, rfl⟩
        have hne : a ≠ t := fun he => hnd.1 (he ▸ ht)
        simp [hne]
      simp [hz]
    · have hne : a ≠ k := fun he => hnd.1 (he ▸ h)
      simp [hne, ih hnd.2 h]

theorem sum_countP_key {α β : Type} [DecidableEq α] (key : β → α) (q : β → Bool)
    (l : List β) (keys : List α) (hnd : keys.Nodup)
    (hmem : ∀ b ∈ l, q b = true → key b ∈ keys) :
    (keys.map fun t => l.countP fun b => (key b == t) && q b).sum = l.countP q := by
  induction l with
  | nil => simp [List.map_const', List.sum_replicate]
  | cons b l ih =>
    have hmem' : ∀ x ∈ l, q x = true → key x ∈ keys := fun x hx =>
      hmem x (List.mem_cons_of_mem b hx)
    simp only [List.countP_cons]
    rw [List.sum_map_add, ih hmem']
    congr 1
    cases hq : q b with
    | false => simp [hq, List.map_const', List.sum_replicate]
    | true =>
      have hk : key b ∈ keys := hmem b (List.mem_cons_self b l) hq
      have h1 := sum_indicator_eq_one keys (key b) hnd hk
      have h2 : (keys.map fun t => if ((key b == t) && true) = true then (1 : ℕ) else 0)
          = keys.map fun t => if key b = t then (1 : ℕ) else 0 := by
        apply List.map_congr_left
        intro t ht
        simp
      rw [h2, h1]
      simp

theorem countP_and_split {β : Type} (p q : β → Bool) (l : List β) :
    l.countP (fun b => p b && q b) + l.countP (fun b => p b && !q b) = l.countP p := by
  induction l with
  | nil => simp
  | cons b l ih =>
    simp only [List.countP_cons]
    cases hp : p b <;> cases hq : q b <;> simp [hp, hq] <;> omega

theorem ceilDiv_bounds (n s : ℕ) (hs : 0 < s) :
    n ≤ s * ((n + s - 1) / s) ∧ s * ((n + s - 1) / s) < n + s := by
  have h1 := Nat.div_add_mod (n + s - 1) s
  have h2 := Nat.mod_lt (n + s - 1) hs
  generalize hm : s * ((n + s - 1) / s) = m at *
  omega

theorem ceil_div_eq (n s : ℕ) (hs : 0 < s) :
    ⌈(n : ℚ) / (s : ℚ)⌉ = (((n + s - 1) / s : ℕ) : ℤ) := by
  have hb := ceilDiv_bounds n s hs
  have hs0 : (0 : ℚ) < (s : ℚ) := by exact_mod_cast hs
  have h1 : (n : ℚ) ≤ (s : ℚ) * (((n + s - 1) / s : ℕ) : ℚ) := by exact_mod_cast hb.1
  have h2 : (s : ℚ) * (((n + s - 1) / s : ℕ) : ℚ) < (n : ℚ) + (s : ℚ) := by
    exact_mod_cast hb.2
  rw [Int.ceil_eq_iff, Int.cast_natCast]
  constructor
  · rw [lt_div_iff₀ hs0]
    ring_nf
    ring_nf at h2
    linarith
  · rw [div_le_iff₀ hs0]
    ring_nf
    ring_nf at h1
    linarith

/-! ### The filter cascade as a single filter -/

theorem mem_condFilterStr {opt : Option String} {get : PredictionRecord → String}
    {l : List PredictionRecord} {r : PredictionRecord} :
    r ∈ condFilterStr opt get l ↔ r ∈ l ∧ condPredStr opt get r = true := by
  cases opt with
  | none => simp [condFilterStr, condPredStr]
  | some s =>
    cases hs : (s == ("" : String)) <;>
      simp [condFilterStr, condPredStr, hs, List.mem_filter]

theorem mem_condFilterQ {opt : Option ℚ} {test : ℚ → PredictionRecord → Bool}
    {l : List PredictionRecord} {r : PredictionRecord} :
    r ∈ condFilterQ opt test l ↔ r ∈ l ∧ condPredQ opt test r = true := by
  cases opt with
  | none => simp [condFilterQ, condPredQ]
  | some q => simp [condFilterQ, condPredQ, List.mem_filter]

theorem mem_condFilterBool {opt : Option Bool} {pb : PredictionRecord → Bool}
    {l : List PredictionRecord} {r : PredictionRecord} :
    r ∈ condFilterBool opt pb l ↔ r ∈ l ∧ condPredBool opt pb r = true := by
  cases opt with
  | none => simp [condFilterBool, condPredBool]
  | some b => cases b <;> simp [condFilterBool, condPredBool, List.mem_filter]

theorem mem_applyFilters {f : PredictionFilters} {l : List PredictionRecord}
    {r : PredictionRecord} :
    r ∈ applyFilters f l ↔ r ∈ l ∧ matchesFilters f r = true := by
  unfold applyFilters
  rw [mem_condFilterBool, mem_condFilterBool, mem_condFilterQ, mem_condFilterQ,
    mem_condFilterStr, mem_condFilterStr]
  simp [matchesFilters, Bool.and_eq_true, and_assoc]

/-! ### Claim C1 -/

/-- Claim C1, counterexample: the claim states the flag equals
`!isCorrect && confidence >= 0.8` (named threshold, default 0.8).  The record
at index 1 of `mockPredictions` (`dog` predicted as `cat`) is incorrect, has
confidence `0.72 < 0.8`, yet its `isHighConfidenceError` flag is set — so the
flag does not follow the claimed rule. -/
theorem c1_counterexample :
    ((mockPredictions.get? 1).map fun r =>
        (r.trueLabel, r.predictedLabel, r.confidence, r.isCorrect, r.isHighConfidenceError))
      = some (("dog"), ("cat"), 0.72, false, true)
    ∧ ¬ ((0.8 : ℚ) ≤ 0.72) := by
  constructor
  · with_unfolding_all decide
  · with_unfolding_all decide

/-- Claim C1 as amended: for every record in `mockPredictions` the
`isHighConfidenceError` flag equals `!isCorrect && confidence > 0.7` — the
threshold is the hard-coded literal `0.7` of `generateMockPredictions` with a
strict comparison (so no correct record has the flag set, and an incorrect
record with confidence exactly `0.7` would not have it set). -/
theorem c1_flag_rule :
    mockPredictions.all
      (fun r => r.isHighConfidenceError
        == (!r.isCorrect && decide ((0.7 : ℚ) < r.confidence))) = true := by
  with_unfolding_all decide

/-! ### Claim C3 -/

/-- Claim C3, counterexample: the claim states the curve has 10 buckets of
one fixed width `0.1`.  `mockConfidenceCurve` has 9 buckets and its first
bucket spans `[0, 0.2)`, of width `0.2 ≠ 0.1`. -/
theorem c3_counterexample :
    mockConfidenceCurve.length = 9
    ∧ ((mockConfidenceCurve.get? 0).map fun b => (b.confidenceMin, b.confidenceMax))
        = some (0, 0.2)
    ∧ ¬ ((0.2 : ℚ) - 0 = 0.1)
    ∧ mockConfidenceCurve.length ≠ 10 := by
  refine ⟨by decide, by with_unfolding_all decide, by with_unfolding_all decide, by decide⟩

/-- Claim C3 as amended: `mockConfidenceCurve` is an ordered sequence of
**nine** contiguous buckets covering `[0, 1]`, emitted in ascending
confidence order; the first bucket spans `[0, 0.2)` (width `0.2`) and the
remaining eight have width `0.1`, with only the last bucket ending at
`1.0`. -/
theorem c3_bucket_layout :
    (mockConfidenceCurve.map fun b => (b.confidenceMin, b.confidenceMax))
      = [(0, 0.2), (0.2, 0.3), (0.3, 0.4), (0.4, 0.5), (0.5, 0.6), (0.6, 0.7),
         (0.7, 0.8), (0.8, 0.9), (0.9, 1.0)]
    ∧ (mockConfidenceCurve.zip mockConfidenceCurve.tail).all
        (fun ab => (ab.1.confidenceMax == ab.2.confidenceMin)
          && decide (ab.1.confidenceMin < ab.2.confidenceMin)) = true := by
  constructor
  · with_unfolding_all decide
  · with_unfolding_all decide

/-! ### Cross-checks of the hand-written mock artifacts -/

/-- The hand-written mock artifacts are mutually inconsistent: the overview
is internally consistent (`accuracy · totalSamples = totalSamples -
totalFailures = 8847`) and the mock confusion matrix sums to `totalSamples`,
but its diagonal sums to `8774`, so the overview and the matrix cannot both
come from one record set. -/
theorem mockArtifacts_cross_check :
    mockOverviewMetrics.accuracy * (mockOverviewMetrics.totalSamples : ℚ)
        = ((mockOverviewMetrics.totalSamples - mockOverviewMetrics.totalFailures : ℕ) : ℚ)
    ∧ matrixTotal mockConfusionMatrix.matrix = mockOverviewMetrics.totalSamples
    ∧ matrixDiag mockConfusionMatrix.matrix = 8774
    ∧ mockOverviewMetrics.accuracy * (mockOverviewMetrics.totalSamples : ℚ)
        ≠ (matrixDiag mockConfusionMatrix.matrix : ℚ)
    ∧ mockOverviewMetrics.totalFailures
        ≠ mockOverviewMetrics.totalSamples - matrixDiag mockConfusionMatrix.matrix := by
  have hdiag : matrixDiag mockConfusionMatrix.matrix = 8774 := by decide
  refine ⟨?_, ?_, hdiag, ?_, ?_⟩
  · norm_num [mockOverviewMetrics]
  · decide
  · rw [hdiag]
    norm_num [mockOverviewMetrics]
  · rw [hdiag]
    decide

/-! ### Diagonal and totals of the spec-modelled confusion matrix -/

theorem getD_map_lt {α β : Type} (g : α → β) (l : List α) (n : ℕ) (d : β)
    (hn : n < l.length) :
    (l.map g).getD n d = g (l.get ⟨n, hn⟩) := by
  have hn' : n < (l.map g).length := by simpa using hn
  rw [List.getD_eq_getElem _ _ hn', List.getElem_map]
  rfl

theorem diag_aux (f : String → String → ℕ) (all : List String) :
    ∀ (rest : List String) (n : ℕ),
      (∀ k, k < rest.length → all.get? (n + k) = rest.get? k) →
      ((List.enumFrom n (rest.map fun t => all.map (f t))).map
          fun iv => iv.2.getD iv.1 0).sum
        = (rest.map fun t => f t t).sum := by
  intro rest
  induction rest with
  | nil => intro n _; simp
  | cons t rest ih =>
    intro n h
    have h0 : all.get? n = some t := by
      have := h 0 (Nat.succ_pos _)
      simpa using this
    have hlt : n < all.length := by
      by_contra hge
      rw [List.get?_eq_none.mpr (Nat.le_of_not_lt hge)] at h0
      cases h0
    have hget : all.get ⟨n, hlt⟩ = t := by
      have := List.get?_eq_get hlt
      rw [this] at h0
      exact Option.some.inj h0
    have hhead : (all.map (f t)).getD n 0 = f t t := by
      rw [getD_map_lt (f t) all n 0 hlt, hget]
    have htail : ∀ k, k < rest.length → all.get? (n + 1 + k) = rest.get? k := by
      intro k hk
      have := h (k + 1) (by simp only [List.length_cons]; omega)
      have harith : n + (k + 1) = n + 1 + k := by omega
      rw [harith] at this
      simpa using this
    simp only [List.map_cons, List.enumFrom_cons, List.sum_cons, hhead]
    rw [ih (n + 1) htail]

theorem matrixDiag_of_map (f : String → String → ℕ) (labels : List String) :
    matrixDiag (labels.map fun t => labels.map (f t))
      = (labels.map fun t => f t t).sum := by
  unfold matrixDiag
  rw [List.enum_eq_enumFrom]
  exact diag_aux f labels labels 0 (fun k _ => by simp)

theorem matrixDiag_confusion (labels : List String)
    (records : List PredictionRecord) (hnd : labels.Nodup)
    (ht : ∀ r ∈ records, r.trueLabel ∈ labels)
    (hc : ∀ r ∈ records, r.isCorrect = (r.trueLabel == r.predictedLabel)) :
    matrixDiag (buildConfusionMatrix labels records)
      = records.countP fun r => r.isCorrect := by
  unfold buildConfusionMatrix
  rw [matrixDiag_of_map]
  have hcongr : (labels.map fun t =>
        records.countP fun r => r.trueLabel == t && r.predictedLabel == t)
      = labels.map fun t =>
        records.countP fun r => (r.trueLabel == t) && (r.trueLabel == r.predictedLabel) := by
    apply List.map_congr_left
    intro t _
    apply List.countP_congr
    intro r _
    simp only [Bool.and_eq_true, beq_iff_eq]
    constructor
    · rintro ⟨rfl, h⟩
      exact ⟨rfl, h.symm⟩
    · rintro ⟨rfl, h⟩
      exact ⟨rfl, h.symm⟩
  rw [hcongr]
  rw [sum_countP_key (fun r => r.trueLabel)
    (fun r => r.trueLabel == r.predictedLabel) records labels hnd
    (fun r hr _ => ht r hr)]
  apply List.countP_congr
  intro r hr
  rw [hc r hr]

theorem row_sum_confusion (labels : List String)
    (records : List PredictionRecord) (hnd : labels.Nodup)
    (hp : ∀ r ∈ records, r.predictedLabel ∈ labels) (t : String) :
    ((labels.map fun p =>
        records.countP fun r => r.trueLabel == t && r.predictedLabel == p).sum)
      = records.countP fun r => r.trueLabel == t := by
  have hcongr : (labels.map fun p =>
        records.countP fun r => r.trueLabel == t && r.predictedLabel == p)
      = labels.map fun p =>
        records.countP fun r => (r.predictedLabel == p) && (r.trueLabel == t) := by
    apply List.map_congr_left
    intro p _
    apply List.countP_congr
    intro r _
    simp only [Bool.and_eq_true]
    tauto
  rw [hcongr]
  exact sum_countP_key (fun r => r.predictedLabel)
    (fun r => r.trueLabel == t) records labels hnd (fun r hr _ => hp r hr)

theorem matrixTotal_confusion (labels : List String)
    (records : List PredictionRecord) (hnd : labels.Nodup)
    (ht : ∀ r ∈ records, r.trueLabel ∈ labels)
    (hp : ∀ r ∈ records, r.predictedLabel ∈ labels) :
    matrixTotal (buildConfusionMatrix labels records) = records.length := by
  unfold matrixTotal buildConfusionMatrix
  rw [List.map_map]
  have h1 : (labels.map (List.sum ∘ fun t =>
        labels.map fun p => records.countP fun r => r.trueLabel == t && r.predictedLabel == p))
      = labels.map fun t => records.countP fun r => r.trueLabel == t := by
    apply List.map_congr_left
    intro t _
    exact row_sum_confusion labels records hnd hp t
  rw [h1]
  have h2 : (labels.map fun t => records.countP fun r => r.trueLabel == t)
      = labels.map fun t => records.countP fun r => (r.trueLabel == t) && true := by
    apply List.map_congr_left
    intro t _
    apply List.countP_congr
    intro r _
    simp
  rw [h2]
  rw [sum_countP_key (fun r => r.trueLabel) (fun _ => true) records labels hnd
    (fun r hr _ => ht r hr)]
  exact congrFun List.countP_true records

/-! ### Claim C2 -/

/-- Claim C2: for the artifacts computed from one record set, the overview
accuracy equals `correctCount / total`; equivalently `accuracy ·
totalSamples` equals the sum of the confusion-matrix diagonal, and
`totalFailures` equals `totalSamples` minus that diagonal sum.  Settled
against the spec-modelled pipeline (the evaluator computing the artifacts is
not under the source tree); the hypotheses are the spec §3 invariants
(`isCorrect = (trueLabel == predictedLabel)`) and the label-set discipline of
§4.2. -/
theorem c2_overview_consistency (labels : List String)
    (records : List PredictionRecord) (hnd : labels.Nodup)
    (ht : ∀ r ∈ records, r.trueLabel ∈ labels)
    (hc : ∀ r ∈ records, r.isCorrect = (r.trueLabel == r.predictedLabel)) :
    overviewAccuracy records
        = ((records.countP fun r => r.isCorrect : ℕ) : ℚ) / (records.length : ℚ)
    ∧ overviewAccuracy records * (records.length : ℚ)
        = (matrixDiag (buildConfusionMatrix labels records) : ℚ)
    ∧ overviewTotalFailures records
        = records.length - matrixDiag (buildConfusionMatrix labels records) := by
  have hd := matrixDiag_confusion labels records hnd ht hc
  refine ⟨rfl, ?_, ?_⟩
  · rw [hd]
    unfold overviewAccuracy
    rcases Nat.eq_zero_or_pos records.length with h0 | hpos
    · have hcz : (records.countP fun r => r.isCorrect) = 0 := by
        have := List.countP_le_length (l := records) (p := fun r => r.isCorrect)
        omega
      rw [h0, hcz]
      norm_num
    · have hlen : (records.length : ℚ) ≠ 0 := by
        have h1 : records.length ≠ 0 := hpos.ne'
        exact_mod_cast h1
      field_simp
  · rw [hd]
    rfl

/-- Witness for C2 at the concrete scenario of spec §8 (labels `{A, B}`,
three records): all hypotheses hold by computation and the theorem applies. -/
theorem c2_witness :
    sampleLabels.Nodup
    ∧ (∀ r ∈ sampleRecords, r.trueLabel ∈ sampleLabels)
    ∧ (∀ r ∈ sampleRecords, r.isCorrect = (r.trueLabel == r.predictedLabel))
    ∧ overviewAccuracy sampleRecords * (sampleRecords.length : ℚ)
        = (matrixDiag (buildConfusionMatrix sampleLabels sampleRecords) : ℚ)
    ∧ overviewTotalFailures sampleRecords
        = sampleRecords.length
            - matrixDiag (buildConfusionMatrix sampleLabels sampleRecords) :=
  ⟨by decide, by decide, by decide,
   (c2_overview_consistency sampleLabels sampleRecords (by decide) (by decide)
     (by decide)).2.1,
   (c2_overview_consistency sampleLabels sampleRecords (by decide) (by decide)
     (by decide)).2.2⟩

/-! ### Claim C5 -/

/-- Claim C5: the confusion matrix built from a record set is a K×K matrix of
counts (non-negative integers by type) in which entry `(t, p)` counts the
records with that true/predicted label pair; the sum of all entries equals
the record count, and every row sum equals the `totalSamples` field of the
corresponding errors-by-class entry.  Settled against the spec-modelled
aggregators (§4.2, §4.4); the hypotheses are the label-set discipline the
spec makes fatal to violate (`UnknownLabelError`). -/
theorem c5_confusion_matrix_invariants (labels : List String)
    (records : List PredictionRecord) (hnd : labels.Nodup)
    (ht : ∀ r ∈ records, r.trueLabel ∈ labels)
    (hp : ∀ r ∈ records, r.predictedLabel ∈ labels) :
    (buildConfusionMatrix labels records).length = labels.length
    ∧ (buildConfusionMatrix labels records).map List.length
        = List.replicate labels.length labels.length
    ∧ (∀ i j, ∀ (hi : i < labels.length) (hj : j < labels.length),
        ((buildConfusionMatrix labels records).getD i []).getD j 0
          = records.countP fun r =>
              r.trueLabel == labels.get ⟨i, hi⟩
                && r.predictedLabel == labels.get ⟨j, hj⟩)
    ∧ matrixTotal (buildConfusionMatrix labels records) = records.length
    ∧ (∀ i, ∀ (hi : i < labels.length),
        ((buildConfusionMatrix labels records).getD i []).sum
          = ((buildErrorsByClass labels records).getD i default).totalSamples) := by
  refine ⟨?_, ?_, ?_, ?_, ?_⟩
  · simp [buildConfusionMatrix]
  · unfold buildConfusionMatrix
    rw [List.map_map]
    have h1 : (labels.map (List.length ∘ fun t =>
          labels.map fun p =>
            records.countP fun r => r.trueLabel == t && r.predictedLabel == p))
        = labels.map fun _ => labels.length := by
      apply List.map_congr_left
      intro t _
      simp
    rw [h1, List.map_const']
  · intro i j hi hj
    unfold buildConfusionMatrix
    rw [getD_map_lt _ labels i [] hi]
    rw [getD_map_lt _ labels j 0 hj]
  · exact matrixTotal_confusion labels records hnd ht hp
  · intro i hi
    unfold buildConfusionMatrix buildErrorsByClass
    rw [getD_map_lt _ labels i [] hi]
    rw [getD_map_lt _ labels i default hi]
    rw [row_sum_confusion labels records hnd hp (labels.get ⟨i, hi⟩)]
    rw [List.countP_eq_length_filter]

/-- Witness for C5 at the concrete scenario of spec §8: the theorem applies
to labels `{A, B}` and the three sample records, giving the shape, the entry
`(0, 1)`, the grand total and the first row sum. -/
theorem c5_witness :
    sampleLabels.Nodup
    ∧ (buildConfusionMatrix sampleLabels sampleRecords).length = sampleLabels.length
    ∧ ((buildConfusionMatrix sampleLabels sampleRecords).getD 0 []).getD 1 0
        = sampleRecords.countP (fun r =>
            r.trueLabel == sampleLabels.get ⟨0, by decide⟩
              && r.predictedLabel == sampleLabels.get ⟨1, by decide⟩)
    ∧ matrixTotal (buildConfusionMatrix sampleLabels sampleRecords)
        = sampleRecords.length
    ∧ ((buildConfusionMatrix sampleLabels sampleRecords).getD 0 []).sum
        = ((buildErrorsByClass sampleLabels sampleRecords).getD 0 default).totalSamples := by
  have h := c5_confusion_matrix_invariants sampleLabels sampleRecords
    (by decide) (by decide) (by decide)
  exact ⟨by decide, h.1, h.2.2.1 0 1 (by decide) (by decide), h.2.2.2.1,
    h.2.2.2.2 0 (by decide)⟩

/-- The confusion matrix of the spec §8 scenario is `[[1, 1], [0, 1]]`, as
the spec states. -/
theorem sampleScenario_confusion :
    buildConfusionMatrix sampleLabels sampleRecords = [[1, 1], [0, 1]] := by
  decide

/-! ### Claim C4 -/

/-- Claim C4: for every non-empty record set the four-way breakdown
percentages sum to exactly 100 (hence within `1e-6`), every record falling in
exactly one of the four categories (the four category counts partition the
record count); the statement holds for every threshold, in particular the
record builder's.  The hand-written `mockOverviewMetrics` percentages also
sum to exactly 100.  Settled against the spec-modelled Overview Summarizer
(§4.6). -/
theorem c4_breakdown_sums_to_100 (threshold : ℚ)
    (records : List PredictionRecord) (hne : records ≠ []) :
    ((records.countP fun r => r.isCorrect && decide (threshold < r.confidence))
      + (records.countP fun r => r.isCorrect && decide (r.confidence ≤ threshold))
      + (records.countP fun r => !r.isCorrect && decide (r.confidence ≤ threshold))
      + (records.countP fun r => !r.isCorrect && decide (threshold < r.confidence))
      = records.length)
    ∧ ((fourWayBreakdown threshold records).1
        + (fourWayBreakdown threshold records).2.1
        + (fourWayBreakdown threshold records).2.2.1
        + (fourWayBreakdown threshold records).2.2.2 = 100)
    ∧ mockOverviewMetrics.correctConfident + mockOverviewMetrics.correctUnsure
        + mockOverviewMetrics.wrongUnsure + mockOverviewMetrics.wrongConfident
        = 100 := by
  have hcu : (records.countP fun r => r.isCorrect && decide (r.confidence ≤ threshold))
      = records.countP fun r => r.isCorrect && !decide (threshold < r.confidence) := by
    apply List.countP_congr
    intro r _
    simp [not_lt]
  have hwu : (records.countP fun r => !r.isCorrect && decide (r.confidence ≤ threshold))
      = records.countP fun r => !r.isCorrect && !decide (threshold < r.confidence) := by
    apply List.countP_congr
    intro r _
    simp [not_lt]
  have hcsplit := countP_and_split (fun r : PredictionRecord => r.isCorrect)
    (fun r => decide (threshold < r.confidence)) records
  have hwsplit := countP_and_split (fun r : PredictionRecord => !r.isCorrect)
    (fun r => decide (threshold < r.confidence)) records
  have htotal := List.length_eq_countP_add_countP
    (fun r : PredictionRecord => r.isCorrect) records
  have hnot : (records.countP fun r => decide ¬ r.isCorrect = true)
      = records.countP fun r => !r.isCorrect := by
    apply List.countP_congr
    intro r _
    cases h : r.isCorrect <;> simp [h]
  have hcounts :
      (records.countP fun r => r.isCorrect && decide (threshold < r.confidence))
        + (records.countP fun r => r.isCorrect && decide (r.confidence ≤ threshold))
        + (records.countP fun r => !r.isCorrect && decide (r.confidence ≤ threshold))
        + (records.countP fun r => !r.isCorrect && decide (threshold < r.confidence))
        = records.length := by
    rw [hcu, hwu]
    have htotal2 : records.length
        = records.countP (fun r => r.isCorrect)
          + records.countP (fun r => !r.isCorrect) := by
      rw [htotal, hnot]
    omega
  refine ⟨hcounts, ?_, ?_⟩
  · have hlen : (records.length : ℚ) ≠ 0 := by
      have h1 : records.length ≠ 0 := by
        intro h
        exact hne (List.length_eq_zero.mp h)
      exact_mod_cast h1
    unfold fourWayBreakdown
    have hcast : ((records.countP fun r => r.isCorrect && decide (threshold < r.confidence)) : ℚ)
        + ((records.countP fun r => r.isCorrect && decide (r.confidence ≤ threshold)) : ℚ)
        + ((records.countP fun r => !r.isCorrect && decide (r.confidence ≤ threshold)) : ℚ)
        + ((records.countP fun r => !r.isCorrect && decide (threshold < r.confidence)) : ℚ)
        = (records.length : ℚ) := by
      exact_mod_cast hcounts
    field_simp
    linarith [hcast]
  · norm_num [mockOverviewMetrics]

/-- Witness for C4 at the spec §8 scenario with the record builder's
threshold `0.7`: the sample record set is non-empty and the theorem
applies. -/
theorem c4_witness :
    sampleRecords ≠ []
    ∧ ((fourWayBreakdown 0.7 sampleRecords).1
        + (fourWayBreakdown 0.7 sampleRecords).2.1
        + (fourWayBreakdown 0.7 sampleRecords).2.2.1
        + (fourWayBreakdown 0.7 sampleRecords).2.2.2 = 100) :=
  ⟨by decide, (c4_breakdown_sums_to_100 0.7 sampleRecords (by decide)).2.1⟩

/-! ### Claim C6 -/

theorem filter_length_partition (p : PredictionRecord → Bool)
    (g : List PredictionRecord) :
    (g.filter p).length + (g.filter fun r => !p r).length = g.length := by
  have h := List.length_eq_countP_add_countP p g
  have h2 : (g.countP fun a => decide ¬ p a = true) = g.countP fun a => !p a := by
    apply List.countP_congr
    intro r _
    cases hr : p r <;> simp [hr]
  rw [h2, List.countP_eq_length_filter, List.countP_eq_length_filter] at h
  omega

theorem bucket_props (g : List PredictionRecord) :
    (g.filter fun r => r.isCorrect).length
        + (g.filter fun r => !r.isCorrect).length = g.length
    ∧ (g.length = 0 →
        (if g.length = 0 then (0 : ℚ)
          else ((g.filter fun r => r.isCorrect).length : ℚ) / (g.length : ℚ)) = 0)
    ∧ 0 ≤ (if g.length = 0 then (0 : ℚ)
        else ((g.filter fun r => r.isCorrect).length : ℚ) / (g.length : ℚ))
    ∧ (if g.length = 0 then (0 : ℚ)
        else ((g.filter fun r => r.isCorrect).length : ℚ) / (g.length : ℚ)) ≤ 1
    ∧ ((if g.length = 0 then (0 : ℚ)
        else ((g.filter fun r => r.isCorrect).length : ℚ) / (g.length : ℚ)) = 0
      ↔ (g.filter fun r => r.isCorrect).length = 0) := by
  have hcle : (g.filter fun r => r.isCorrect).length ≤ g.length :=
    List.length_filter_le _ g
  refine ⟨filter_length_partition (fun r => r.isCorrect) g, ?_, ?_, ?_, ?_⟩
  · intro h0
    simp [h0]
  · by_cases h0 : g.length = 0
    · simp [h0]
    · simp only [if_neg h0]
      positivity
  · by_cases h0 : g.length = 0
    · simp [h0]
    · simp only [if_neg h0]
      rw [div_le_one (by exact_mod_cast Nat.pos_of_ne_zero h0)]
      exact_mod_cast hcle
  · by_cases h0 : g.length = 0
    · have hc0 : (g.filter fun r => r.isCorrect).length = 0 := by omega
      simp [h0, hc0]
    · simp only [if_neg h0]
      rw [div_eq_zero_iff]
      have hgne : ((g.length : ℕ) : ℚ) ≠ 0 := by exact_mod_cast h0
      constructor
      · intro h
        rcases h with h | h
        · exact_mod_cast h
        · exact absurd h hgne
      · intro h
        left
        exact_mod_cast h

/-- Claim C6, counterexample to "accuracy equals 0 exactly when the bucket is
empty": for a record set consisting of one incorrect record of confidence
`0.05`, the first bucket of the curve has `totalCount = 1` yet
`accuracyInBucket = 0`. -/
theorem c6_counterexample :
    ((buildConfidenceCurve [lowConfWrongRecord]).get? 0).map
        (fun b => (b.totalCount, b.accuracyInBucket)) = some (1, 0)
    ∧ (1 : ℕ) ≠ 0 := by
  constructor
  · with_unfolding_all decide
  · decide

/-- Claim C6 as amended: for the confidence curve of any record set the
bucket totals sum to the record count; in every bucket
`correctCount + incorrectCount = totalCount` and
`accuracyInBucket = correctCount / totalCount` lies in `[0, 1]`, equals `0`
when the bucket is empty, and equals `0` if and only if the bucket has no
correct record (which can also happen in a non-empty bucket).  Settled
against the spec-modelled Confidence Curve Binner (§4.3). -/
theorem c6_curve_invariants (records : List PredictionRecord) :
    ((buildConfidenceCurve records).map fun b => b.totalCount).sum = records.length
    ∧ ∀ b ∈ buildConfidenceCurve records,
        b.correctCount + b.incorrectCount = b.totalCount
        ∧ (b.totalCount = 0 → b.accuracyInBucket = 0)
        ∧ 0 ≤ b.accuracyInBucket
        ∧ b.accuracyInBucket ≤ 1
        ∧ (b.accuracyInBucket = 0 ↔ b.correctCount = 0) := by
  constructor
  · have hmem : ∀ r ∈ records, (fun _ : PredictionRecord => true) r = true →
        bucketIndex r.confidence ∈ List.range 10 := by
      intro r _ _
      exact List.mem_range.mpr (Nat.lt_succ_of_le (Nat.min_le_right _ 9))
    have key := sum_countP_key (fun r : PredictionRecord => bucketIndex r.confidence)
      (fun _ => true) records (List.range 10) (List.nodup_range 10) hmem
    rw [congrFun List.countP_true records] at key
    rw [← key]
    unfold buildConfidenceCurve
    rw [List.map_map]
    apply congrArg List.sum
    apply List.map_congr_left
    intro i _
    show (records.filter fun r => bucketIndex r.confidence == i).length
      = records.countP fun b => (bucketIndex b.confidence == i) && true
    rw [List.countP_eq_length_filter]
    congr 1
    apply List.filter_congr
    intro x _
    simp
  · intro b hb
    unfold buildConfidenceCurve at hb
    rcases List.mem_map.mp hb with ⟨i, _, rfl⟩
    exact bucket_props (records.filter fun r => bucketIndex r.confidence == i)

/-- Witness for C6: the theorem applied to the spec §8 sample records, read
off at the bucket `[0.8, 0.9)` (which holds the 0.85-confidence record). -/
theorem c6_witness :
    ((buildConfidenceCurve sampleRecords).map fun b => b.totalCount).sum
        = sampleRecords.length
    ∧ ((buildConfidenceCurve sampleRecords).getD 8 default).correctCount
        + ((buildConfidenceCurve sampleRecords).getD 8 default).incorrectCount
        = ((buildConfidenceCurve sampleRecords).getD 8 default).totalCount :=
  ⟨(c6_curve_invariants sampleRecords).1,
   ((c6_curve_invariants sampleRecords).2
      ((buildConfidenceCurve sampleRecords).getD 8 default)
      (by with_unfolding_all decide)).1⟩

/-! ### Claim C7 -/

/-- Claim C7, counterexample to "the page size is capped at a maximum value":
the mock implementation applies no cap — a requested page size of `101`
(above the backend's documented maximum of 100) is used and reported
as-is. -/
theorem c7_counterexample :
    (getMockPaginatedPredictions 1 101 none).pageSize = 101
    ∧ ¬ ((getMockPaginatedPredictions 1 101 none).pageSize ≤ 100) := by
  constructor
  · rfl
  · decide

/-- Claim C7 as amended: for every filter combination, page `p ≥ 1` and page
size `s ≥ 1`, `getMockPaginatedPredictions` returns exactly the slice
`[(p-1)·s, p·s)` of the filtered record list, reports `total` as the number
of matching records and `totalPages = ⌈total / s⌉`; no page-size cap is
applied (the requested size is used and echoed unchanged — the documented
maximum of 100 exists only in the backend API, which is outside the source
tree). -/
theorem c7_pagination (page pageSize : ℕ) (filters : Option PredictionFilters)
    (hp : 1 ≤ page) (hs : 1 ≤ pageSize) :
    (getMockPaginatedPredictions page pageSize filters).predictions
        = ((filteredMockPredictions filters).drop ((page - 1) * pageSize)).take pageSize
    ∧ (getMockPaginatedPredictions page pageSize filters).total
        = (filteredMockPredictions filters).length
    ∧ (getMockPaginatedPredictions page pageSize filters).totalPages
        = ((filteredMockPredictions filters).length + pageSize - 1) / pageSize
    ∧ (getMockPaginatedPredictions page pageSize filters).pageSize = pageSize
    ∧ (getMockPaginatedPredictions page pageSize filters).page = page := by
  refine ⟨rfl, rfl, ?_, rfl, rfl⟩
  show (⌈((filterCascade mockPredictions filters).length : ℚ) / (pageSize : ℚ)⌉).toNat
    = ((filterCascade mockPredictions filters).length + pageSize - 1) / pageSize
  rw [ceil_div_eq (filterCascade mockPredictions filters).length pageSize hs]
  exact Int.toNat_natCast _

/-- Witness for C7: page 2 of size 10 with no filters. -/
theorem c7_witness :
    (1 ≤ 2 ∧ 1 ≤ 10)
    ∧ (getMockPaginatedPredictions 2 10 none).predictions
        = ((filteredMockPredictions none).drop 10).take 10
    ∧ (getMockPaginatedPredictions 2 10 none).totalPages
        = ((filteredMockPredictions none).length + 10 - 1) / 10 :=
  ⟨⟨by decide, by decide⟩,
   (c7_pagination 2 10 none (by decide) (by decide)).1,
   (c7_pagination 2 10 none (by decide) (by decide)).2.2.1⟩

/-! ### Claim C9 -/

/-- Claim C9: for every filter combination and every page strictly beyond
`⌈total / pageSize⌉` — including any page when nothing matches, where
`totalPages = 0` — the function returns an empty predictions array while
still reporting the matching `total`, the requested `page` and `totalPages`.
(The Lean embedding is a total function, reflecting that the source neither
throws nor returns an error value on such inputs.) -/
theorem c9_out_of_range_page (page pageSize : ℕ)
    (filters : Option PredictionFilters) (hs : 1 ≤ pageSize)
    (hpage : ((filteredMockPredictions filters).length + pageSize - 1) / pageSize
      < page) :
    (getMockPaginatedPredictions page pageSize filters).predictions = []
    ∧ (getMockPaginatedPredictions page pageSize filters).total
        = (filteredMockPredictions filters).length
    ∧ (getMockPaginatedPredictions page pageSize filters).page = page
    ∧ (getMockPaginatedPredictions page pageSize filters).totalPages
        = ((filteredMockPredictions filters).length + pageSize - 1) / pageSize := by
  have htp := (c7_pagination page pageSize filters (Nat.lt_of_le_of_lt (Nat.zero_le _) hpage) hs).2.2.1
  refine ⟨?_, rfl, rfl, htp⟩
  show (((filterCascade mockPredictions filters).drop ((page - 1) * pageSize)).take
    pageSize) = []
  have hb := ceilDiv_bounds (filterCascade mockPredictions filters).length pageSize hs
  have hpage2 : ((filterCascade mockPredictions filters).length + pageSize - 1) / pageSize
      < page := hpage
  have hmul : pageSize * (((filterCascade mockPredictions filters).length + pageSize - 1)
      / pageSize) ≤ pageSize * (page - 1) := by
    apply Nat.mul_le_mul_left
    omega
  have hle : (filterCascade mockPredictions filters).length ≤ (page - 1) * pageSize := by
    calc (filterCascade mockPredictions filters).length
        ≤ pageSize * (((filterCascade mockPredictions filters).length + pageSize - 1)
            / pageSize) := hb.1
      _ ≤ pageSize * (page - 1) := hmul
      _ = (page - 1) * pageSize := Nat.mul_comm _ _
  rw [List.drop_eq_nil_of_le hle]
  exact List.take_nil

/-- Witness for C9: no filters match zero... page 99 of size 10 over the 50
mock records (`totalPages = 5 < 99`) yields an empty page. -/
theorem c9_witness :
    (1 ≤ 10 ∧ ((filteredMockPredictions none).length + 10 - 1) / 10 < 99)
    ∧ (getMockPaginatedPredictions 99 10 none).predictions = []
    ∧ (getMockPaginatedPredictions 99 10 none).total
        = (filteredMockPredictions none).length :=
  ⟨⟨by decide, by decide⟩,
   (c9_out_of_range_page 99 10 none (by decide) (by decide)).1,
   (c9_out_of_range_page 99 10 none (by decide) (by decide)).2.1⟩

/-! ### Claim C8 -/

theorem condPredStr_spec {opt : Option String} {get : PredictionRecord → String}
    {r : PredictionRecord} (h : condPredStr opt get r = true) :
    ∀ s, opt = some s → s ≠ "" → get r = s := by
  intro s hs hne
  subst hs
  have h2 : (s == ("" : String) || get r == s) = true := h
  have hb : (s == ("" : String)) = false := beq_eq_false_iff_ne.mpr hne
  rw [hb, Bool.false_or] at h2
  exact (beq_iff_eq).mp h2

theorem condPredQ_spec {opt : Option ℚ} {test : ℚ → PredictionRecord → Bool}
    {r : PredictionRecord} (h : condPredQ opt test r = true) :
    ∀ q, opt = some q → test q r = true := by
  intro q hq
  subst hq
  exact h

theorem condPredBool_spec {opt : Option Bool} {pb : PredictionRecord → Bool}
    {r : PredictionRecord} (h : condPredBool opt pb r = true) :
    opt = some true → pb r = true := by
  intro hb
  subst hb
  exact h

/-- Claim C8: every record returned by `getMockPaginatedPredictions`
satisfies the conjunction of all active filters (label equality holds
whenever the label filter is set to a non-empty string — the JavaScript
truthiness the source uses; the confidence bounds whenever set; error-only
and high-confidence-error-only whenever set to `true`); and the filtered
list contains exactly the records of `mockPredictions` matching the
conjunction, so every filtered-out record fails at least one active
filter. -/
theorem c8_filter_conjunction (f : PredictionFilters) (page pageSize : ℕ) :
    (∀ i, ∀ (hi : i <
        (getMockPaginatedPredictions page pageSize (some f)).predictions.length),
      let r := (getMockPaginatedPredictions page pageSize (some f)).predictions.get
        ⟨i, hi⟩
      (∀ s, f.trueLabel = some s → s ≠ "" → r.trueLabel = s)
      ∧ (∀ s, f.predictedLabel = some s → s ≠ "" → r.predictedLabel = s)
      ∧ (∀ q, f.minConfidence = some q → q ≤ r.confidence)
      ∧ (∀ q, f.maxConfidence = some q → r.confidence ≤ q)
      ∧ (f.onlyErrors = some true → r.isCorrect = false)
      ∧ (f.onlyHighConfidenceErrors = some true → r.isHighConfidenceError = true))
    ∧ (∀ r : PredictionRecord,
        r ∈ filteredMockPredictions (some f)
          ↔ r ∈ mockPredictions ∧ matchesFilters f r = true) := by
  have hiff : ∀ r : PredictionRecord,
      r ∈ filteredMockPredictions (some f)
        ↔ r ∈ mockPredictions ∧ matchesFilters f r = true := by
    intro r
    exact mem_applyFilters
  constructor
  · intro i hi
    intro r
    have hrmem : r ∈ (getMockPaginatedPredictions page pageSize (some f)).predictions :=
      List.get_mem _ i hi
    have hrfil : r ∈ filteredMockPredictions (some f) :=
      List.mem_of_mem_drop (List.mem_of_mem_take hrmem)
    have hmatch : matchesFilters f r = true := ((hiff r).mp hrfil).2
    unfold matchesFilters at hmatch
    simp only [Bool.and_eq_true] at hmatch
    obtain ⟨⟨⟨⟨⟨h1, h2⟩, h3⟩, h4⟩, h5⟩, h6⟩ := hmatch
    refine ⟨condPredStr_spec h1, condPredStr_spec h2, ?_, ?_, ?_, ?_⟩
    · intro q hq
      exact of_decide_eq_true (condPredQ_spec h3 q hq)
    · intro q hq
      exact of_decide_eq_true (condPredQ_spec h4 q hq)
    · intro hb
      have := condPredBool_spec h5 hb
      simpa using this
    · intro hb
      exact condPredBool_spec h6 hb
  · exact hiff

/-- Witness for C8: the filters "true label `cat`, confidence at least `0.5`,
errors only" on page 1 of size 10: the first returned record is a `cat`
record, and a filtered-out record (the bird-as-airplane record at index 4 of
`mockPredictions`) fails the conjunction and is indeed not in the filtered
list. -/
theorem c8_witness :
    (0 < (getMockPaginatedPredictions 1 10
        (some { trueLabel := some ("cat"), predictedLabel := none,
                minConfidence := some 0.5, maxConfidence := none,
                onlyErrors := some true,
                onlyHighConfidenceErrors := none })).predictions.length)
    ∧ ((getMockPaginatedPredictions 1 10
        (some { trueLabel := some ("cat"), predictedLabel := none,
                minConfidence := some 0.5, maxConfidence := none,
                onlyErrors := some true,
                onlyHighConfidenceErrors := none })).predictions.get
          ⟨0, by with_unfolding_all decide⟩).trueLabel = "cat"
    ∧ (mockPredictions.getD 4 default)
        ∉ filteredMockPredictions
          (some { trueLabel := some ("cat"), predictedLabel := none,
                  minConfidence := some 0.5, maxConfidence := none,
                  onlyErrors := some true,
                  onlyHighConfidenceErrors := none }) := by
  refine ⟨by with_unfolding_all decide, ?_, ?_⟩
  · exact ((c8_filter_conjunction
      { trueLabel := some ("cat"), predictedLabel := none,
        minConfidence := some 0.5, maxConfidence := none,
        onlyErrors := some true, onlyHighConfidenceErrors := none } 1 10).1 0
      (by with_unfolding_all decide)).1 ("cat") rfl (by decide)
  · intro hmem
    have h2 := ((c8_filter_conjunction
      { trueLabel := some ("cat"), predictedLabel := none,
        minConfidence := some 0.5, maxConfidence := none,
        onlyErrors := some true, onlyHighConfidenceErrors := none } 1 10).2
      (mockPredictions.getD 4 default)).mp hmem
    have h3 : matchesFilters
        { trueLabel := some ("cat"), predictedLabel := none,
          minConfidence := some 0.5, maxConfidence := none,
          onlyErrors := some true, onlyHighConfidenceErrors := none }
        (mockPredictions.getD 4 default) = false := by
      with_unfolding_all decide
    rw [h3] at h2
    exact Bool.false_ne_true h2.2

/-! ### Claim C10 -/

/-- Claim C10: `getMockPaginatedPredictions` never modifies the module-level
`mockPredictions` array: with the module state threaded explicitly, any
sequence of calls leaves the state element-for-element identical to its
initial value, every single call returns the state it received, and a second
call with the same arguments (on the state the first call left) returns the
same result. -/
theorem c10_no_mutation :
    (∀ (calls : List (ℕ × ℕ × Option PredictionFilters)),
      (calls.foldl
        (fun st a => (getMockPaginatedPredictionsM st a.1 a.2.1 a.2.2).2)
        initialMockDataModule).mockPredictions = mockPredictions)
    ∧ (∀ (st : MockDataModule) (page pageSize : ℕ)
        (filters : Option PredictionFilters),
        (getMockPaginatedPredictionsM st page pageSize filters).2 = st
        ∧ (getMockPaginatedPredictionsM
              ((getMockPaginatedPredictionsM st page pageSize filters).2)
              page pageSize filters).1
            = (getMockPaginatedPredictionsM st page pageSize filters).1) := by
  constructor
  · intro calls
    have hfold : ∀ st : MockDataModule,
        calls.foldl
          (fun st a => (getMockPaginatedPredictionsM st a.1 a.2.1 a.2.2).2) st
          = st := by
      induction calls with
      | nil => intro st; rfl
      | cons a as ih => intro st; exact ih st
    rw [hfold]
    rfl
  · intro st page pageSize filters
    exact ⟨rfl, rfl⟩

/-- Witness for C10: a concrete two-call sequence leaves the module state at
its initial value. -/
theorem c10_witness :
    (([((1 : ℕ), (10 : ℕ), (none : Option PredictionFilters)),
       ((2 : ℕ), (5 : ℕ), (none : Option PredictionFilters))].foldl
        (fun st a => (getMockPaginatedPredictionsM st a.1 a.2.1 a.2.2).2)
        initialMockDataModule).mockPredictions = mockPredictions) :=
  c10_no_mutation.1
    [((1 : ℕ), (10 : ℕ), (none : Option PredictionFilters)),
     ((2 : ℕ), (5 : ℕ), (none : Option PredictionFilters))]

end MLDash
